import Mathlib

/-!
Shallow embedding of the MediaWiki MCP server (`src/index.ts`): the
`MediaWikiClient` session/auth client and the `CallToolRequestSchema`
dispatcher.  JavaScript runtime values that flow through the code are
modelled by the `Json` type (with an explicit `undefined`); JS numbers are
modelled as `Int` (every numeric literal in the source is an integer and no
arithmetic leaves the integer range); `NaN` arises only as the result of
`Math.min` on a non-numeric argument and is modelled as the string it
renders to on the wire.  Thrown `Error` values are modelled as their
message strings (`Except String`).  The network is an oracle
`net : HttpRequest → HttpResponse`; each client operation returns its
result, the updated client state, and the list of HTTP requests it issued,
in order.
-/

namespace Wizzy

/-- JavaScript values reachable in this program: parsed JSON bodies plus
`undefined` (the result of a missing-property access). -/
inductive Json where
  | undefined
  | null
  | bool (b : Bool)
  | num (n : Int)
  | str (s : String)
  | arr (elems : List Json)
  | obj (fields : List (String × Json))

/-- JS truthiness (`if (x)`). -/
def jsTruthy : Json → Bool
  | .undefined => false
  | .null => false
  | .bool b => b
  | .num n => n != 0
  | .str s => !s.isEmpty
  | .arr _ => true
  | .obj _ => true

/-- Is the value `undefined`? (used by the `value !== undefined` filters). -/
def Json.isUndef : Json → Bool
  | .undefined => true
  | _ => false

/-- Is the value `undefined` or `null`? (property access on such a base throws). -/
def Json.isNullish : Json → Bool
  | .undefined => true
  | .null => true
  | _ => false

/-- First binding of a key in an object's field list. -/
def lookupField : List (String × Json) → String → Option Json
  | [], _ => none
  | (k, v) :: fs, key => if k = key then some v else lookupField fs key

/-- Property access on a non-nullish base: a missing key (or a primitive
base) yields `undefined`, as in JS. -/
def jsFieldRaw : Json → String → Json
  | .obj fs, k => (lookupField fs k).getD .undefined
  | _, _ => .undefined

/-- Property access `x.k`: throws a TypeError on `undefined`/`null`,
otherwise `jsFieldRaw`. -/
def jsGet (j : Json) (k : String) : Except String Json :=
  match j with
  | .undefined => .error ("TypeError: Cannot read properties of undefined (reading " ++ k ++ ")")
  | .null => .error ("TypeError: Cannot read properties of null (reading " ++ k ++ ")")
  | j => .ok (jsFieldRaw j k)

/-- Index access on a non-nullish base: arrays by position, objects by the
decimal key, anything else `undefined`. -/
def jsIndexRaw : Json → Nat → Json
  | .arr xs, i => xs.getD i .undefined
  | .obj fs, i => (lookupField fs (toString i)).getD .undefined
  | _, _ => .undefined

/-- Index access `x[i]`: throws on a nullish base. -/
def jsIndex (j : Json) (i : Nat) : Except String Json :=
  match j with
  | .undefined => .error ("TypeError: Cannot read properties of undefined (reading " ++ toString i ++ ")")
  | .null => .error ("TypeError: Cannot read properties of null (reading " ++ toString i ++ ")")
  | j => .ok (jsIndexRaw j i)

/-- `x.map(f)` element extraction: throws on a nullish or non-array base. -/
def jsMapArray : Json → Except String (List Json)
  | .undefined => .error "TypeError: Cannot read properties of undefined (reading map)"
  | .null => .error "TypeError: Cannot read properties of null (reading map)"
  | .arr xs => .ok xs
  | _ => .error "TypeError: map is not a function"

mutual

/-- JS `String(value)` conversion, as used for URL/form parameter values and
template-literal interpolation. -/
def jsToString : Json → String
  | .undefined => "undefined"
  | .null => "null"
  | .bool b => if b then "true" else "false"
  | .num n => toString n
  | .str s => s
  | .arr xs => jsListToString xs
  | .obj _ => "[object Object]"

/-- `Array.prototype.toString`: elements joined with `,`. -/
def jsListToString : List Json → String
  | [] => ""
  | [x] => jsElemToString x
  | x :: y :: xs => jsElemToString x ++ "," ++ jsListToString (y :: xs)

/-- Array element conversion: `null`/`undefined` render empty. -/
def jsElemToString : Json → String
  | .undefined => ""
  | .null => ""
  | .bool b => if b then "true" else "false"
  | .num n => toString n
  | .str s => s
  | .arr xs => jsListToString xs
  | .obj _ => "[object Object]"

end

/-- JS `Number(x)` coercion restricted to the values this program feeds to
`Math.min` (integer-valued); `none` models `NaN`. -/
def toNumber : Json → Option Int
  | .undefined => none
  | .null => some 0
  | .bool b => some (if b then 1 else 0)
  | .num n => some n
  | .str s => if s.isEmpty then some 0 else s.toInt?
  | .arr _ => none
  | .obj _ => none

/-- `Math.min(a, b)` as applied to the `limit` tool argument; a `NaN` result
is modelled as the string it renders to in the request. -/
def mathMin (a b : Json) : Json :=
  match toNumber a, toNumber b with
  | some x, some y => .num (min x y)
  | _, _ => .str "NaN"

/-- Strict equality `x === "lit"` against a string literal. -/
def jsStrictEqStr (j : Json) (t : String) : Bool :=
  match j with
  | .str s => s == t
  | _ => false

/-- Falsiness of an optional-string field (`!this.username`): absent or
empty. -/
def jsStrFalsy : Option String → Bool
  | none => true
  | some s => s.isEmpty

/-- An optional string as the JS value it denotes. -/
def optStr : Option String → Json
  | none => .undefined
  | some s => .str s

/-- HTTP method of an API call. -/
inductive Method where
  | GET
  | POST
deriving DecidableEq

/-- A request as `makeApiCall` sends it: target URL, method, the rendered
key/value parameters in append order (query string for GET, form body for
POST), and the `Cookie` header if one was set. -/
structure HttpRequest where
  url : String
  method : Method
  params : List (String × String)
  cookieHeader : Option String

/-- A response as the client consumes it: the `Set-Cookie` header, if any,
and the parsed JSON body. -/
structure HttpResponse where
  setCookie : Option String
  body : Json

/-- The network oracle standing for `fetch`. -/
def Net : Type := HttpRequest → HttpResponse

/-- `MediaWikiClient` instance state (`apiUrl`, `username`, `password`,
`loggedIn`, `editToken`, `cookies`).  `editToken` is kept as the raw JS
value assigned from the response (initially `undefined`). -/
structure MediaWikiClient where
  apiUrl : String
  username : Option String
  password : Option String
  loggedIn : Bool
  editToken : Json
  cookies : List String

/-- The constructor `new MediaWikiClient(apiUrl, username, password)`. -/
def MediaWikiClient.mk0 (apiUrl : String) (username password : Option String) : MediaWikiClient :=
  { apiUrl := apiUrl, username := username, password := password,
    loggedIn := false, editToken := .undefined, cookies := [] }

/-- JS object-property assignment `ps[k] = v`: replaces the value in place
if the key exists, otherwise appends the binding. -/
def setParam (ps : List (String × Json)) (k : String) (v : Json) : List (String × Json) :=
  if ps.any (fun p => p.1 = k) then ps.map (fun p => if p.1 = k then (k, v) else p)
  else ps ++ [(k, v)]

/-- `params.format = 'json'; params.formatversion = '2'`. -/
def commonParams (ps : List (String × Json)) : List (String × Json) :=
  setParam (setParam ps "format" (.str "json")) "formatversion" (.str "2")

/-- Parameter rendering shared by both methods: entries with `undefined`
values are skipped, others stringified with `String(value)`. -/
def renderParams (ps : List (String × Json)) : List (String × String) :=
  (ps.filter (fun p => !p.2.isUndef)).map (fun p => (p.1, jsToString p.2))

/-- `this.cookies.join('; ')`, attached only when the jar is non-empty. -/
def cookieHeaderOf (cookies : List String) : Option String :=
  if cookies.length > 0 then some (String.intercalate "; " cookies) else none

/-- The request `makeApiCall` issues for the given client state, caller
parameters and method. -/
def buildRequest (c : MediaWikiClient) (ps : List (String × Json)) (m : Method) : HttpRequest :=
  { url := c.apiUrl, method := m, params := renderParams (commonParams ps),
    cookieHeader := cookieHeaderOf c.cookies }

/-- `if (setCookieHeader) this.cookies.push(setCookieHeader)`. -/
def saveCookies (c : MediaWikiClient) (resp : HttpResponse) : MediaWikiClient :=
  match resp.setCookie with
  | some sc => { c with cookies := c.cookies ++ [sc] }
  | none => c

/-- The thrown message: backtick-template `MediaWiki API error: code - info`. -/
def apiErrorMessage (errVal : Json) : String :=
  "MediaWiki API error: " ++ jsToString (jsFieldRaw errVal "code") ++ " - "
    ++ jsToString (jsFieldRaw errVal "info")

/-- `MediaWikiClient.makeApiCall`: build the request, record any `Set-Cookie`
from the response, then throw if the parsed body has a truthy `error`
property, otherwise return the body unchanged.  (Note the source pushes the
cookie before it inspects the body.) -/
def makeApiCall (net : Net) (c : MediaWikiClient) (ps : List (String × Json)) (m : Method) :
    Except String Json × MediaWikiClient × List HttpRequest :=
  let req := buildRequest c ps m
  let resp := net req
  let c1 := saveCookies c resp
  match jsGet resp.body "error" with
  | .error e => (.error e, c1, [req])
  | .ok errVal =>
    if jsTruthy errVal then (.error (apiErrorMessage errVal), c1, [req])
    else (.ok resp.body, c1, [req])

/-- Parameters of the login-token fetch (step 1 of `login`). -/
def loginTokenParams : List (String × Json) :=
  [("action", .str "query"), ("meta", .str "tokens"), ("type", .str "login")]

/-- Parameters of the credential submission (step 2 of `login`). -/
def loginSubmitParams (c : MediaWikiClient) (loginToken : Json) : List (String × Json) :=
  [("action", .str "login"), ("lgname", optStr c.username),
   ("lgpassword", optStr c.password), ("lgtoken", loginToken)]

/-- `MediaWikiClient.login`. -/
def login (net : Net) (c : MediaWikiClient) :
    Except String Bool × MediaWikiClient × List HttpRequest :=
  if jsStrFalsy c.username || jsStrFalsy c.password then (.ok false, c, [])
  else if c.loggedIn then (.ok true, c, [])
  else
    match makeApiCall net c loginTokenParams .GET with
    | (.error e, c1, reqs) => (.error e, c1, reqs)
    | (.ok tokenResponse, c1, reqs1) =>
      match (do
          let q ← jsGet tokenResponse "query"
          let tks ← jsGet q "tokens"
          jsGet tks "logintoken") with
      | .error e => (.error e, c1, reqs1)
      | .ok loginToken =>
        match makeApiCall net c1 (loginSubmitParams c loginToken) .POST with
        | (.error e, c2, reqs2) => (.error e, c2, reqs1 ++ reqs2)
        | (.ok loginResponse, c2, reqs2) =>
          match jsGet loginResponse "login" with
          | .error e => (.error e, c2, reqs1 ++ reqs2)
          | .ok l =>
            match jsGet l "result" with
            | .error e => (.error e, c2, reqs1 ++ reqs2)
            | .ok r =>
              if jsStrictEqStr r "Success" then
                (.ok true, { c2 with loggedIn := true }, reqs1 ++ reqs2)
              else
                match jsGet l "reason" with
                | .error e => (.error e, c2, reqs1 ++ reqs2)
                | .ok reason =>
                  (.error ("Login failed: " ++ jsToString reason), c2, reqs1 ++ reqs2)

/-- Parameters of the CSRF-token fetch in `getEditToken`. -/
def editTokenParams : List (String × Json) :=
  [("action", .str "query"), ("meta", .str "tokens")]

/-- `MediaWikiClient.getEditToken`: fetch `csrftoken` only when the cached
`editToken` is falsy, then return the cached field. -/
def getEditToken (net : Net) (c : MediaWikiClient) :
    Except String Json × MediaWikiClient × List HttpRequest :=
  if jsTruthy c.editToken then (.ok c.editToken, c, [])
  else
    match makeApiCall net c editTokenParams .GET with
    | (.error e, c1, reqs) => (.error e, c1, reqs)
    | (.ok tokenResponse, c1, reqs) =>
      match (do
          let q ← jsGet tokenResponse "query"
          let tks ← jsGet q "tokens"
          jsGet tks "csrftoken") with
      | .error e => (.error e, c1, reqs)
      | .ok tok => (.ok tok, { c1 with editToken := tok }, reqs)

/-- Parameters `searchPages` passes to `makeApiCall`. -/
def searchParams (query limit : Json) : List (String × Json) :=
  [("action", .str "query"), ("list", .str "search"), ("srsearch", query),
   ("srlimit", limit), ("srinfo", .str "totalhits"),
   ("srprop", .str "size|wordcount|timestamp|snippet")]

/-- `MediaWikiClient.searchPages`. -/
def searchPages (net : Net) (c : MediaWikiClient) (query limit : Json) :
    Except String Json × MediaWikiClient × List HttpRequest :=
  makeApiCall net c (searchParams query limit) .GET

/-- Parameters `getPage` passes to `makeApiCall`. -/
def getPageParams (title : Json) : List (String × Json) :=
  [("action", .str "query"), ("prop", .str "revisions"), ("titles", title),
   ("rvprop", .str "content|timestamp|user|comment"), ("rvslots", .str "main")]

/-- `MediaWikiClient.getPage`. -/
def getPage (net : Net) (c : MediaWikiClient) (title : Json) :
    Except String Json × MediaWikiClient × List HttpRequest :=
  makeApiCall net c (getPageParams title) .GET

/-- Parameters of the edit POST issued by `createPage`. -/
def createParams (title text summary token : Json) : List (String × Json) :=
  [("action", .str "edit"), ("title", title), ("text", text),
   ("summary", summary), ("token", token), ("createonly", .bool true)]

/-- Parameters of the edit POST issued by `updatePage` (no `createonly`). -/
def updateParams (title text summary token : Json) : List (String × Json) :=
  [("action", .str "edit"), ("title", title), ("text", text),
   ("summary", summary), ("token", token)]

/-- `MediaWikiClient.createPage`: ensure an edit token, then POST the edit. -/
def createPage (net : Net) (c : MediaWikiClient) (title content summary : Json) :
    Except String Json × MediaWikiClient × List HttpRequest :=
  match getEditToken net c with
  | (.error e, c1, reqs) => (.error e, c1, reqs)
  | (.ok token, c1, reqs) =>
    match makeApiCall net c1 (createParams title content summary token) .POST with
    | (r, c2, reqs2) => (r, c2, reqs ++ reqs2)

/-- `MediaWikiClient.updatePage`: ensure an edit token, then POST the edit. -/
def updatePage (net : Net) (c : MediaWikiClient) (title content summary : Json) :
    Except String Json × MediaWikiClient × List HttpRequest :=
  match getEditToken net c with
  | (.error e, c1, reqs) => (.error e, c1, reqs)
  | (.ok token, c1, reqs) =>
    match makeApiCall net c1 (updateParams title content summary token) .POST with
    | (r, c2, reqs2) => (r, c2, reqs ++ reqs2)

/-- Parameters `getPageHistory` passes to `makeApiCall`. -/
def historyParams (title limit : Json) : List (String × Json) :=
  [("action", .str "query"), ("prop", .str "revisions"), ("titles", title),
   ("rvprop", .str "timestamp|user|comment|ids"), ("rvlimit", limit)]

/-- `MediaWikiClient.getPageHistory`. -/
def getPageHistory (net : Net) (c : MediaWikiClient) (title limit : Json) :
    Except String Json × MediaWikiClient × List HttpRequest :=
  makeApiCall net c (historyParams title limit) .GET

/-- Parameters `getCategories` passes to `makeApiCall`. -/
def categoriesParams (title : Json) : List (String × Json) :=
  [("action", .str "query"), ("prop", .str "categories"), ("titles", title),
   ("cllimit", .str "max")]

/-- `MediaWikiClient.getCategories`. -/
def getCategories (net : Net) (c : MediaWikiClient) (title : Json) :
    Except String Json × MediaWikiClient × List HttpRequest :=
  makeApiCall net c (categoriesParams title) .GET

/-- JSON string escaping for `JSON.stringify` (quote, backslash and the
common control characters; no other characters in this program's strings
need escaping). -/
def jsonEscapeChar (ch : Char) : String :=
  if ch = '"' then "\\\""
  else if ch = '\\' then "\\\\"
  else if ch = '\n' then "\\n"
  else if ch = '\t' then "\\t"
  else if ch = '\r' then "\\r"
  else String.singleton ch

/-- A JSON-quoted string literal. -/
def jsonQuote (s : String) : String :=
  "\"" ++ String.join (s.toList.map jsonEscapeChar) ++ "\""

mutual

/-- `JSON.stringify(v, null, 2)` at the given current indentation.  A bare
`undefined` only occurs inside containers in this program (objects drop the
field, arrays render `null`); the top-level `undefined` case is unreachable
because the dispatcher only stringifies object literals. -/
def stringifyVal (ind : String) : Json → String
  | .undefined => "null"
  | .null => "null"
  | .bool b => if b then "true" else "false"
  | .num n => toString n
  | .str s => jsonQuote s
  | .arr xs => stringifyArr ind xs
  | .obj fs => stringifyObj ind fs

/-- Array rendering with two-space indentation. -/
def stringifyArr (ind : String) : List Json → String
  | [] => "[]"
  | x :: xs =>
    "[\n" ++ ind ++ "  " ++ stringifyVal (ind ++ "  ") x
      ++ stringifyArrRest (ind ++ "  ") xs ++ "\n" ++ ind ++ "]"

/-- Remaining array elements, comma-prefixed. -/
def stringifyArrRest (ind : String) : List Json → String
  | [] => ""
  | x :: xs => ",\n" ++ ind ++ stringifyVal ind x ++ stringifyArrRest ind xs

/-- Object rendering; fields whose value is `undefined` are skipped, and an
object whose every field is skipped renders as the empty object. -/
def stringifyObj (ind : String) : List (String × Json) → String
  | [] => "\x7b\x7d"
  | (k, v) :: fs =>
    if v.isUndef then stringifyObj ind fs
    else
      "\x7b\n" ++ ind ++ "  " ++ jsonQuote k ++ ": " ++ stringifyVal (ind ++ "  ") v
        ++ stringifyFieldsRest (ind ++ "  ") fs ++ "\n" ++ ind ++ "\x7d"

/-- Remaining object fields, comma-prefixed, skipping `undefined` values. -/
def stringifyFieldsRest (ind : String) : List (String × Json) → String
  | [] => ""
  | (k, v) :: fs =>
    if v.isUndef then stringifyFieldsRest ind fs
    else ",\n" ++ ind ++ jsonQuote k ++ ": " ++ stringifyVal ind v
      ++ stringifyFieldsRest ind fs

end

/-- One entry of a tool result's `content` array. -/
inductive ContentBlock where
  | text (s : String)

/-- The value a tool handler returns: content blocks plus the `isError`
flag (absent in the source's success results, hence `false`). -/
structure ToolResult where
  content : List ContentBlock
  isError : Bool

/-- A success result: one text block holding `JSON.stringify(out, null, 2)`. -/
def textResult (out : Json) : ToolResult :=
  { content := [.text (stringifyVal "" out)], isError := false }

/-- Argument destructuring `const { k } = args` (the dispatcher has already
ruled out a falsy `args`, so the base is never nullish). -/
def argField (args : Json) (k : String) : Json :=
  jsFieldRaw args k

/-- Argument destructuring with a default, `const { k = d } = args`. -/
def argFieldD (args : Json) (k : String) (d : Json) : Json :=
  match jsFieldRaw args k with
  | .undefined => d
  | v => v

/-- The `{title, exists: false, message}` object returned for a missing
page. -/
def missingPageResult (page : Json) : Json :=
  .obj [("title", jsFieldRaw page "title"), ("exists", .bool false),
        ("message", .str "Page does not exist")]

/-- The common shape of every non-default `switch` case: thread the client
call's state and request trace, and on success reshape the raw body into
the reported object, stringified into a text result; a reshaping throw
(property access on a malformed body) propagates as an error. -/
def toolStep (call : Except String Json × MediaWikiClient × List HttpRequest)
    (reshape : Json → Except String Json) :
    Except String ToolResult × MediaWikiClient × List HttpRequest :=
  match call with
  | (.error e, c1, reqs) => (.error e, c1, reqs)
  | (.ok result, c1, reqs) =>
    match reshape result with
    | .error e => (.error e, c1, reqs)
    | .ok out => (.ok (textResult out), c1, reqs)

/-- The `search_pages` case's reshaping of the raw search response. -/
def searchReshape (result : Json) : Except String Json := do
  let q ← jsGet result "query"
  let search ← jsGet q "search"
  let elems ← jsMapArray search
  let pages ← elems.mapM (fun page => do
    let t ← jsGet page "title"
    let sn ← jsGet page "snippet"
    let sz ← jsGet page "size"
    let wc ← jsGet page "wordcount"
    let ts ← jsGet page "timestamp"
    pure (Json.obj [("title", t), ("snippet", sn), ("size", sz),
                    ("wordCount", wc), ("timestamp", ts)]))
  let si ← jsGet q "searchinfo"
  let totalHits ← jsGet si "totalhits"
  pure (Json.obj [("totalHits", totalHits), ("pages", .arr pages)])

/-- The `read_page` case's reshaping: the missing-page object when
`page.missing` is truthy, otherwise `(title, content, lastEdit)` from the
first revision's main slot. -/
def readReshape (result : Json) : Except String Json := do
  let q ← jsGet result "query"
  let pages ← jsGet q "pages"
  let page ← jsIndex pages 0
  let missing ← jsGet page "missing"
  if jsTruthy missing then
    pure (missingPageResult page)
  else do
    let revisions ← jsGet page "revisions"
    let revision ← jsIndex revisions 0
    let slots ← jsGet revision "slots"
    let mainSlot ← jsGet slots "main"
    let content ← jsGet mainSlot "content"
    pure (Json.obj [("title", jsFieldRaw page "title"),
      ("content", content),
      ("lastEdit", Json.obj [("timestamp", jsFieldRaw revision "timestamp"),
        ("user", jsFieldRaw revision "user"),
        ("comment", jsFieldRaw revision "comment")])])

/-- The `create_page`/`update_page` cases' reshaping of the edit
response. -/
def editReshape (title : Json) (result : Json) : Except String Json := do
  let ed ← jsGet result "edit"
  let r ← jsGet ed "result"
  let nid ← jsGet ed "newrevid"
  pure (Json.obj [("title", title), ("result", r), ("newRevId", nid),
    ("success", .bool (jsStrictEqStr r "Success"))])

/-- The `get_page_history` case's reshaping. -/
def historyReshape (result : Json) : Except String Json := do
  let q ← jsGet result "query"
  let pages ← jsGet q "pages"
  let page ← jsIndex pages 0
  let missing ← jsGet page "missing"
  if jsTruthy missing then
    pure (missingPageResult page)
  else do
    let revisionsJ ← jsGet page "revisions"
    let elems ← jsMapArray revisionsJ
    let revs ← elems.mapM (fun rev => do
      let i ← jsGet rev "revid"
      let ts ← jsGet rev "timestamp"
      let u ← jsGet rev "user"
      let cm ← jsGet rev "comment"
      pure (Json.obj [("id", i), ("timestamp", ts), ("user", u),
                      ("comment", cm)]))
    pure (Json.obj [("title", jsFieldRaw page "title"),
                    ("revisions", .arr revs)])

/-- The `get_categories` case's reshaping. -/
def categoriesReshape (result : Json) : Except String Json := do
  let q ← jsGet result "query"
  let pages ← jsGet q "pages"
  let page ← jsIndex pages 0
  let missing ← jsGet page "missing"
  if jsTruthy missing then
    pure (missingPageResult page)
  else do
    let catsJ ← jsGet page "categories"
    let categories ←
      if jsTruthy catsJ then do
        let elems ← jsMapArray catsJ
        let ts ← elems.mapM (fun cat => jsGet cat "title")
        pure (Json.arr ts)
      else pure (Json.arr [])
    pure (Json.obj [("title", jsFieldRaw page "title"),
                    ("categories", categories)])

/-- The `switch (request.params.name)` body: per-tool argument
destructuring, client call and response reshaping; the default branch
throws `Unknown tool`. -/
def dispatch (net : Net) (c : MediaWikiClient) (name : String) (args : Json) :
    Except String ToolResult × MediaWikiClient × List HttpRequest :=
  if name = "search_pages" then
    let query := argField args "query"
    let limit := argFieldD args "limit" (.num 10)
    toolStep (searchPages net c query (mathMin limit (.num 50))) searchReshape
  else if name = "read_page" then
    toolStep (getPage net c (argField args "title")) readReshape
  else if name = "create_page" then
    let title := argField args "title"
    let content := argField args "content"
    let summary := argFieldD args "summary" (.str "Created via MCP")
    toolStep (createPage net c title content summary) (editReshape title)
  else if name = "update_page" then
    let title := argField args "title"
    let content := argField args "content"
    let summary := argFieldD args "summary" (.str "Updated via MCP")
    toolStep (updatePage net c title content summary) (editReshape title)
  else if name = "get_page_history" then
    let title := argField args "title"
    let limit := argFieldD args "limit" (.num 10)
    toolStep (getPageHistory net c title limit) historyReshape
  else if name = "get_categories" then
    toolStep (getCategories net c (argField args "title")) categoriesReshape
  else
    (.error ("Unknown tool: " ++ name), c, [])

/-- The `try` block of the `CallToolRequestSchema` handler: argument
presence check, the login gate for every tool other than `search_pages` and
`read_page`, then the switch. -/
def handleInner (net : Net) (c : MediaWikiClient) (name : String) (args : Json) :
    Except String ToolResult × MediaWikiClient × List HttpRequest :=
  if !jsTruthy args then (.error "Arguments are required", c, [])
  else if name != "search_pages" && name != "read_page" then
    match login net c with
    | (.error e, c1, reqs) => (.error e, c1, reqs)
    | (.ok _, c1, reqs) =>
      match dispatch net c1 name args with
      | (r, c2, reqs2) => (r, c2, reqs ++ reqs2)
  else dispatch net c name args

/-- The full `CallToolRequestSchema` handler: the `catch` converts any
thrown error into an `isError` result carrying `Error: <message>`. -/
def handleToolCall (net : Net) (c : MediaWikiClient) (name : String) (args : Json) :
    ToolResult × MediaWikiClient × List HttpRequest :=
  match handleInner net c name args with
  | (.ok r, c1, reqs) => (r, c1, reqs)
  | (.error msg, c1, reqs) =>
    ({ content := [.text ("Error: " ++ msg)], isError := true }, c1, reqs)

/-! ## Helper lemmas -/

@[simp]
theorem saveCookies_cookies (c : MediaWikiClient) (resp : HttpResponse) :
    (saveCookies c resp).cookies = c.cookies ++ resp.setCookie.toList := by
  cases h : resp.setCookie <;> simp [saveCookies, h]

@[simp]
theorem saveCookies_username (c : MediaWikiClient) (resp : HttpResponse) :
    (saveCookies c resp).username = c.username := by
  cases h : resp.setCookie <;> simp [saveCookies, h]

@[simp]
theorem saveCookies_password (c : MediaWikiClient) (resp : HttpResponse) :
    (saveCookies c resp).password = c.password := by
  cases h : resp.setCookie <;> simp [saveCookies, h]

@[simp]
theorem saveCookies_loggedIn (c : MediaWikiClient) (resp : HttpResponse) :
    (saveCookies c resp).loggedIn = c.loggedIn := by
  cases h : resp.setCookie <;> simp [saveCookies, h]

@[simp]
theorem saveCookies_editToken (c : MediaWikiClient) (resp : HttpResponse) :
    (saveCookies c resp).editToken = c.editToken := by
  cases h : resp.setCookie <;> simp [saveCookies, h]

@[simp]
theorem saveCookies_apiUrl (c : MediaWikiClient) (resp : HttpResponse) :
    (saveCookies c resp).apiUrl = c.apiUrl := by
  cases h : resp.setCookie <;> simp [saveCookies, h]

theorem jsGet_of_not_nullish (j : Json) (k : String) (h : j.isNullish = false) :
    jsGet j k = .ok (jsFieldRaw j k) := by
  cases j <;> simp_all [jsGet, Json.isNullish]

theorem jsIndex_of_not_nullish (j : Json) (i : Nat) (h : j.isNullish = false) :
    jsIndex j i = .ok (jsIndexRaw j i) := by
  cases j <;> simp_all [jsIndex, Json.isNullish]

/-- The behaviour of `makeApiCall` on any response whose parsed body is not
nullish, expressed through the derived request, the cookie save and the
`error`-property check. -/
theorem makeApiCall_eq (net : Net) (c : MediaWikiClient) (ps : List (String × Json)) (m : Method)
    (h : (net (buildRequest c ps m)).body.isNullish = false) :
    makeApiCall net c ps m =
      ((if jsTruthy (jsFieldRaw (net (buildRequest c ps m)).body "error") then
          .error (apiErrorMessage (jsFieldRaw (net (buildRequest c ps m)).body "error"))
        else .ok (net (buildRequest c ps m)).body),
       saveCookies c (net (buildRequest c ps m)), [buildRequest c ps m]) := by
  dsimp only [makeApiCall]
  rw [jsGet_of_not_nullish _ _ h]
  by_cases ht : jsTruthy (jsFieldRaw (net (buildRequest c ps m)).body "error") <;> simp [ht]

/-- The success case of `makeApiCall`: non-nullish body without a truthy
`error` property — the body is returned, cookies saved, one request
issued. -/
theorem makeApiCall_ok_eq (net : Net) (c : MediaWikiClient)
    (ps : List (String × Json)) (m : Method)
    (hb : (net (buildRequest c ps m)).body.isNullish = false)
    (he : jsTruthy (jsFieldRaw (net (buildRequest c ps m)).body "error") = false) :
    makeApiCall net c ps m =
      (.ok (net (buildRequest c ps m)).body,
       saveCookies c (net (buildRequest c ps m)), [buildRequest c ps m]) := by
  rw [makeApiCall_eq net c ps m hb]
  simp [he]

/-! ## Concrete scenario data -/

/-- A response body carrying a MediaWiki `error` object. -/
def errBadtokenBody : Json :=
  .obj [("error", .obj [("code", .str "badtoken"), ("info", .str "Invalid CSRF token.")])]

/-- An oracle answering every request with the `badtoken` error body and a
`Set-Cookie` header. -/
def netBadtoken : Net := fun _ =>
  { setCookie := some "session=abc", body := errBadtokenBody }

/-- A freshly constructed client with no credentials. -/
def clientAnon : MediaWikiClient :=
  MediaWikiClient.mk0 "https://wiki.example/api.php" none none

/-- The request `getEditToken` issues from a given client state. -/
def editTokenRequest (c : MediaWikiClient) : HttpRequest :=
  buildRequest c editTokenParams .GET

/-- An oracle answering every request with a well-formed CSRF-token body. -/
def netCsrf : Net := fun _ =>
  { setCookie := none,
    body := .obj [("query", .obj [("tokens", .obj [("csrftoken", .str "csrftok+\\")])])] }

/-! ## C1 -/

/-- C1 counterexample: with a response that both sets a cookie and carries
an `error` body, `makeApiCall` raises the `ApiError` message but the cookie
jar is nevertheless extended — the cookie push precedes the error check, so
the error branch is not atomic on the jar. -/
theorem makeApiCall_error_branch_appends_cookie :
    (makeApiCall netBadtoken clientAnon [("action", Json.str "query")] .GET).1
        = .error "MediaWiki API error: badtoken - Invalid CSRF token."
      ∧ clientAnon.cookies = []
      ∧ (makeApiCall netBadtoken clientAnon [("action", Json.str "query")] .GET).2.1.cookies
        = ["session=abc"] :=
  ⟨rfl, rfl, rfl⟩

/-- C1 (amended): for every call to `makeApiCall` whose response body is not
nullish, a truthy `error` property makes the call fail with the message
`MediaWiki API error: code - info` derived from that property, a non-error
body is returned unchanged, and in **both** branches any `Set-Cookie`
response header is appended to the cookie jar (the save precedes the error
check). -/
theorem makeApiCall_contract (net : Net) (c : MediaWikiClient)
    (ps : List (String × Json)) (m : Method)
    (h : (net (buildRequest c ps m)).body.isNullish = false) :
    (jsTruthy (jsFieldRaw (net (buildRequest c ps m)).body "error") = true →
        makeApiCall net c ps m =
          (.error (apiErrorMessage (jsFieldRaw (net (buildRequest c ps m)).body "error")),
           saveCookies c (net (buildRequest c ps m)), [buildRequest c ps m]))
    ∧ (jsTruthy (jsFieldRaw (net (buildRequest c ps m)).body "error") = false →
        makeApiCall net c ps m =
          (.ok (net (buildRequest c ps m)).body,
           saveCookies c (net (buildRequest c ps m)), [buildRequest c ps m]))
    ∧ (makeApiCall net c ps m).2.1.cookies
        = c.cookies ++ (net (buildRequest c ps m)).setCookie.toList := by
  refine ⟨fun ht => ?_, fun hf => ?_, ?_⟩
  · rw [makeApiCall_eq net c ps m h]
    simp [ht]
  · rw [makeApiCall_eq net c ps m h]
    simp [hf]
  · rw [makeApiCall_eq net c ps m h]
    simp

/-- Witness for `makeApiCall_contract` at the `badtoken` scenario. -/
theorem makeApiCall_contract_instance :
    makeApiCall netBadtoken clientAnon [("action", Json.str "query")] .GET
      = (.error "MediaWiki API error: badtoken - Invalid CSRF token.",
         { clientAnon with cookies := ["session=abc"] },
         [buildRequest clientAnon [("action", Json.str "query")] .GET]) := by
  have h := (makeApiCall_contract netBadtoken clientAnon
    [("action", Json.str "query")] .GET rfl).1 rfl
  exact h.trans (by rfl)

/-! ## C2 -/

/-- `getEditToken()` called `n` times in sequence, threading the client and
concatenating the issued requests. -/
def getEditTokenN (net : Net) :
    Nat → MediaWikiClient → List (Except String Json) × MediaWikiClient × List HttpRequest
  | 0, c => ([], c, [])
  | n + 1, c =>
    match getEditToken net c with
    | (r, c1, reqs) =>
      match getEditTokenN net n c1 with
      | (rs, c2, reqs2) => (r :: rs, c2, reqs ++ reqs2)

theorem getEditToken_cached (net : Net) (c : MediaWikiClient)
    (h : jsTruthy c.editToken = true) :
    getEditToken net c = (.ok c.editToken, c, []) := by
  simp [getEditToken, h]

theorem getEditTokenN_cached (net : Net) (n : Nat) (c : MediaWikiClient)
    (h : jsTruthy c.editToken = true) :
    getEditTokenN net n c = (List.replicate n (.ok c.editToken), c, []) := by
  induction n with
  | zero => simp [getEditTokenN]
  | succ k ih => simp [getEditTokenN, getEditToken_cached net c h, ih, List.replicate_succ]

theorem getEditToken_first (net : Net) (c : MediaWikiClient) (t : String)
    (hcold : jsTruthy c.editToken = false)
    (hbody : (net (editTokenRequest c)).body.isNullish = false)
    (herr : jsTruthy (jsFieldRaw (net (editTokenRequest c)).body "error") = false)
    (hq : (jsFieldRaw (net (editTokenRequest c)).body "query").isNullish = false)
    (htk : (jsFieldRaw (jsFieldRaw (net (editTokenRequest c)).body "query") "tokens").isNullish
      = false)
    (htok : jsFieldRaw (jsFieldRaw (jsFieldRaw (net (editTokenRequest c)).body "query") "tokens")
      "csrftoken" = .str t) :
    getEditToken net c
      = (.ok (.str t),
         { saveCookies c (net (editTokenRequest c)) with editToken := .str t },
         [editTokenRequest c]) := by
  have hm := makeApiCall_ok_eq net c editTokenParams .GET hbody herr
  have hdo : (do
      let q ← jsGet (net (editTokenRequest c)).body "query"
      let tks ← jsGet q "tokens"
      jsGet tks "csrftoken") = Except.ok (Json.str t) := by
    rw [jsGet_of_not_nullish _ _ hbody]
    show (do
        let tks ← jsGet (jsFieldRaw (net (editTokenRequest c)).body "query") "tokens"
        jsGet tks "csrftoken") = Except.ok (Json.str t)
    rw [jsGet_of_not_nullish _ _ hq]
    show jsGet (jsFieldRaw (jsFieldRaw (net (editTokenRequest c)).body "query") "tokens")
        "csrftoken" = Except.ok (Json.str t)
    rw [jsGet_of_not_nullish _ _ htk, htok]
  simp only [getEditToken, hcold, Bool.false_eq_true, if_false]
  rw [show buildRequest c editTokenParams Method.GET = editTokenRequest c from rfl] at hm
  rw [hm]
  dsimp only
  rw [hdo]

/-- C2: `getEditToken` memoizes the CSRF token — starting from a client
with no cached token, if the token-fetch response is well formed and
carries a non-empty `csrftoken` string `t`, then `N ≥ 1` sequential calls
issue exactly one network request (the `action=query, meta=tokens` fetch)
and every call returns the same token `t`. -/
theorem getEditToken_memoizes (net : Net) (c : MediaWikiClient) (N : Nat) (t : String)
    (hN : 1 ≤ N) (ht : t ≠ "")
    (hcold : jsTruthy c.editToken = false)
    (hbody : (net (editTokenRequest c)).body.isNullish = false)
    (herr : jsTruthy (jsFieldRaw (net (editTokenRequest c)).body "error") = false)
    (hq : (jsFieldRaw (net (editTokenRequest c)).body "query").isNullish = false)
    (htk : (jsFieldRaw (jsFieldRaw (net (editTokenRequest c)).body "query") "tokens").isNullish
      = false)
    (htok : jsFieldRaw (jsFieldRaw (jsFieldRaw (net (editTokenRequest c)).body "query") "tokens")
      "csrftoken" = .str t) :
    getEditTokenN net N c
      = (List.replicate N (.ok (.str t)),
         { saveCookies c (net (editTokenRequest c)) with editToken := .str t },
         [editTokenRequest c]) := by
  obtain ⟨n, rfl⟩ : ∃ n, N = n + 1 := ⟨N - 1, (Nat.succ_pred_eq_of_pos hN).symm⟩
  have hfirst := getEditToken_first net c t hcold hbody herr hq htk htok
  have htr : jsTruthy (Json.str t) = true := by
    have h0 : t.isEmpty = false := by
      cases hb : t.isEmpty
      · rfl
      · exact absurd ((String.isEmpty_iff t).mp hb) ht
    simp [jsTruthy, h0]
  simp only [getEditTokenN, hfirst]
  rw [getEditTokenN_cached net n _ htr]
  simp [List.replicate_succ]

/-- Witness for `getEditToken_memoizes`: three calls against the concrete
CSRF oracle. -/
theorem getEditToken_memoizes_instance :
    getEditTokenN netCsrf 3 clientAnon
      = (List.replicate 3 (.ok (.str "csrftok+\\")),
         { saveCookies clientAnon (netCsrf (editTokenRequest clientAnon)) with
            editToken := .str "csrftok+\\" },
         [editTokenRequest clientAnon]) := by
  exact getEditToken_memoizes netCsrf clientAnon 3 "csrftok+\\"
    (by decide) (by decide) rfl rfl rfl rfl rfl rfl

/-! ## C3 -/

/-- The request step 1 of `login` issues from a given client state. -/
def loginTokenRequest (c : MediaWikiClient) : HttpRequest :=
  buildRequest c loginTokenParams .GET

/-- The request step 2 of `login` issues, given that step 1 produced the
login token `t` (the client state at step 2 has absorbed step 1's
cookies). -/
def loginSubmitRequest (net : Net) (c : MediaWikiClient) (t : String) : HttpRequest :=
  buildRequest (saveCookies c (net (loginTokenRequest c))) (loginSubmitParams c (.str t)) .POST

/-- Helper: evaluation of a first real `login` under a well-formed token
response — both the `Success` and the failure outcome of the credential
submission. -/
theorem login_first_eq (net : Net) (c : MediaWikiClient) (t : String)
    (hcreds : (jsStrFalsy c.username || jsStrFalsy c.password) = false)
    (hlog : c.loggedIn = false)
    (hb1 : (net (loginTokenRequest c)).body.isNullish = false)
    (he1 : jsTruthy (jsFieldRaw (net (loginTokenRequest c)).body "error") = false)
    (hq1 : (jsFieldRaw (net (loginTokenRequest c)).body "query").isNullish = false)
    (htk1 : (jsFieldRaw (jsFieldRaw (net (loginTokenRequest c)).body "query") "tokens").isNullish
      = false)
    (hltok : jsFieldRaw (jsFieldRaw (jsFieldRaw (net (loginTokenRequest c)).body "query") "tokens")
      "logintoken" = .str t)
    (hb2 : (net (loginSubmitRequest net c t)).body.isNullish = false)
    (he2 : jsTruthy (jsFieldRaw (net (loginSubmitRequest net c t)).body "error") = false)
    (hl2 : (jsFieldRaw (net (loginSubmitRequest net c t)).body "login").isNullish = false) :
    (jsFieldRaw (jsFieldRaw (net (loginSubmitRequest net c t)).body "login") "result"
        = .str "Success" →
      login net c =
        (.ok true,
         { saveCookies (saveCookies c (net (loginTokenRequest c)))
             (net (loginSubmitRequest net c t)) with loggedIn := true },
         [loginTokenRequest c, loginSubmitRequest net c t]))
    ∧ (∀ r : Json,
        jsFieldRaw (jsFieldRaw (net (loginSubmitRequest net c t)).body "login") "result" = r →
        jsStrictEqStr r "Success" = false →
        login net c =
          (.error ("Login failed: " ++ jsToString
              (jsFieldRaw (jsFieldRaw (net (loginSubmitRequest net c t)).body "login")
                "reason")),
           saveCookies (saveCookies c (net (loginTokenRequest c)))
             (net (loginSubmitRequest net c t)),
           [loginTokenRequest c, loginSubmitRequest net c t])
          ∧ (login net c).2.1.loggedIn = false) := by
    have hm1 := makeApiCall_ok_eq net c loginTokenParams .GET hb1 he1
    have hdo1 : (do
        let q ← jsGet (net (loginTokenRequest c)).body "query"
        let tks ← jsGet q "tokens"
        jsGet tks "logintoken") = Except.ok (Json.str t) := by
      rw [jsGet_of_not_nullish _ _ hb1]
      show (do
          let tks ← jsGet (jsFieldRaw (net (loginTokenRequest c)).body "query") "tokens"
          jsGet tks "logintoken") = Except.ok (Json.str t)
      rw [jsGet_of_not_nullish _ _ hq1]
      show jsGet (jsFieldRaw (jsFieldRaw (net (loginTokenRequest c)).body "query") "tokens")
          "logintoken" = Except.ok (Json.str t)
      rw [jsGet_of_not_nullish _ _ htk1, hltok]
    have hm2 := makeApiCall_ok_eq net (saveCookies c (net (loginTokenRequest c)))
      (loginSubmitParams c (.str t)) .POST hb2 he2
    have hstep : ∀ x : Except String Bool × MediaWikiClient × List HttpRequest,
        (match jsGet (jsFieldRaw (net (loginSubmitRequest net c t)).body "login") "result" with
          | Except.error e =>
            (Except.error e, saveCookies (saveCookies c (net (loginTokenRequest c)))
              (net (loginSubmitRequest net c t)),
             [loginTokenRequest c] ++ [loginSubmitRequest net c t])
          | Except.ok r =>
            if jsStrictEqStr r "Success" then
              (Except.ok true,
               { saveCookies (saveCookies c (net (loginTokenRequest c)))
                   (net (loginSubmitRequest net c t)) with loggedIn := true },
               [loginTokenRequest c] ++ [loginSubmitRequest net c t])
            else
              match jsGet (jsFieldRaw (net (loginSubmitRequest net c t)).body "login") "reason" with
              | Except.error e =>
                (Except.error e, saveCookies (saveCookies c (net (loginTokenRequest c)))
                  (net (loginSubmitRequest net c t)),
                 [loginTokenRequest c] ++ [loginSubmitRequest net c t])
              | Except.ok reason =>
                (Except.error ("Login failed: " ++ jsToString reason),
                 saveCookies (saveCookies c (net (loginTokenRequest c)))
                   (net (loginSubmitRequest net c t)),
                 [loginTokenRequest c] ++ [loginSubmitRequest net c t])) = x →
        login net c = x := by
      intro x hx
      unfold login
      simp only [hcreds, hlog, Bool.false_eq_true, if_false]
      rw [show buildRequest c loginTokenParams Method.GET = loginTokenRequest c from rfl] at hm1
      rw [hm1]
      dsimp only
      rw [hdo1]
      dsimp only
      rw [show buildRequest (saveCookies c (net (loginTokenRequest c)))
        (loginSubmitParams c (Json.str t)) Method.POST = loginSubmitRequest net c t from rfl] at hm2
      rw [hm2]
      dsimp only
      rw [jsGet_of_not_nullish _ _ hb2]
      dsimp only
      exact hx
    constructor
    · intro hres
      apply hstep
      rw [jsGet_of_not_nullish _ _ hl2, hres]
      simp [jsStrictEqStr]
    · intro r hres hne
      have hgoal := hstep _ rfl
      rw [jsGet_of_not_nullish _ _ hl2, hres] at hgoal
      simp only [hne, Bool.false_eq_true, if_false] at hgoal
      rw [jsGet_of_not_nullish _ _ hl2] at hgoal
      dsimp only at hgoal
      refine ⟨hgoal, ?_⟩
      rw [hgoal]
      simp [hlog]

/-- C3: the `login` contract — with missing/empty credentials it returns
`false` with no network request; with credentials and `loggedIn` already
set it returns `true` with no network request; on a first real login with a
well-formed token response (login token `t`) and a submit response
reporting `result: "Success"` it issues exactly the token GET followed by
the credential POST and sets `loggedIn`; and when the submit response
reports any other `result` it fails with the `Login failed` error, leaving
`loggedIn` unset. -/
theorem login_contract (net : Net) (c : MediaWikiClient) :
    ((jsStrFalsy c.username || jsStrFalsy c.password) = true →
        login net c = (.ok false, c, []))
    ∧ ((jsStrFalsy c.username || jsStrFalsy c.password) = false → c.loggedIn = true →
        login net c = (.ok true, c, []))
    ∧ (∀ t : String,
        (jsStrFalsy c.username || jsStrFalsy c.password) = false → c.loggedIn = false →
        (net (loginTokenRequest c)).body.isNullish = false →
        jsTruthy (jsFieldRaw (net (loginTokenRequest c)).body "error") = false →
        (jsFieldRaw (net (loginTokenRequest c)).body "query").isNullish = false →
        (jsFieldRaw (jsFieldRaw (net (loginTokenRequest c)).body "query") "tokens").isNullish
          = false →
        jsFieldRaw (jsFieldRaw (jsFieldRaw (net (loginTokenRequest c)).body "query") "tokens")
          "logintoken" = .str t →
        (net (loginSubmitRequest net c t)).body.isNullish = false →
        jsTruthy (jsFieldRaw (net (loginSubmitRequest net c t)).body "error") = false →
        (jsFieldRaw (net (loginSubmitRequest net c t)).body "login").isNullish = false →
        (jsFieldRaw (jsFieldRaw (net (loginSubmitRequest net c t)).body "login") "result"
            = .str "Success" →
          login net c =
            (.ok true,
             { saveCookies (saveCookies c (net (loginTokenRequest c)))
                 (net (loginSubmitRequest net c t)) with loggedIn := true },
             [loginTokenRequest c, loginSubmitRequest net c t]))
        ∧ (∀ r : Json,
            jsFieldRaw (jsFieldRaw (net (loginSubmitRequest net c t)).body "login") "result" = r →
            jsStrictEqStr r "Success" = false →
            login net c =
              (.error ("Login failed: " ++ jsToString
                  (jsFieldRaw (jsFieldRaw (net (loginSubmitRequest net c t)).body "login")
                    "reason")),
               saveCookies (saveCookies c (net (loginTokenRequest c)))
                 (net (loginSubmitRequest net c t)),
               [loginTokenRequest c, loginSubmitRequest net c t])
              ∧ (login net c).2.1.loggedIn = false)) := by
  refine ⟨fun hf => ?_, fun hcreds hlog => ?_,
    fun t hcreds hlog hb1 he1 hq1 htk1 hltok hb2 he2 hl2 => ?_⟩
  · simp [login, hf]
  · simp [login, hcreds, hlog]
  · exact login_first_eq net c t hcreds hlog hb1 he1 hq1 htk1 hltok hb2 he2 hl2

/-- An oracle serving a complete successful login handshake: the GET is
answered with a login-token body, the POST with a `Success` body, each
setting its own cookie. -/
def netLoginOk : Net := fun req =>
  match req.method with
  | .GET =>
    { setCookie := some "ss0=1",
      body := .obj [("query", .obj [("tokens", .obj [("logintoken", .str "ltok")])])] }
  | .POST =>
    { setCookie := some "ss1=2",
      body := .obj [("login", .obj [("result", .str "Success")])] }

/-- A freshly constructed client with credentials. -/
def clientCred : MediaWikiClient :=
  MediaWikiClient.mk0 "https://wiki.example/api.php" (some "alice") (some "hunter2")

/-- Witness for `login_contract`: the successful first login against the
concrete handshake oracle. -/
theorem login_contract_instance :
    login netLoginOk clientCred
      = (.ok true,
         { saveCookies (saveCookies clientCred (netLoginOk (loginTokenRequest clientCred)))
             (netLoginOk (loginSubmitRequest netLoginOk clientCred "ltok")) with
            loggedIn := true },
         [loginTokenRequest clientCred, loginSubmitRequest netLoginOk clientCred "ltok"]) := by
  exact ((login_contract netLoginOk clientCred).2.2 "ltok"
    rfl rfl rfl rfl rfl rfl rfl rfl rfl rfl).1 rfl

/-! ## C4 -/

/-- C4: any error thrown during tool handling is caught at the dispatcher
boundary and converted into a tool result flagged `isError` whose single
text block is `Error: <message>`; in particular a MediaWiki
`error: (code: badtoken)` response surfaces through `create_page` as the
text `Error: MediaWiki API error: badtoken - Invalid CSRF token.`. -/
theorem dispatcher_error_boundary :
    (∀ (net : Net) (c : MediaWikiClient) (name : String) (args : Json)
        (msg : String) (c' : MediaWikiClient) (reqs : List HttpRequest),
      handleInner net c name args = (.error msg, c', reqs) →
      handleToolCall net c name args
        = ({ content := [.text ("Error: " ++ msg)], isError := true }, c', reqs))
    ∧ (handleToolCall netBadtoken clientAnon "create_page"
          (.obj [("title", .str "T"), ("content", .str "C")])).1
        = { content := [.text "Error: MediaWiki API error: badtoken - Invalid CSRF token."],
            isError := true } := by
  constructor
  · intro net c name args msg c' reqs h
    unfold handleToolCall
    rw [h]
  · rfl

/-- Witness for `dispatcher_error_boundary`: the boundary converts the
`UnknownToolError` thrown for an unrecognized tool name. -/
theorem dispatcher_error_boundary_instance :
    handleToolCall netBadtoken clientAnon "bogus_tool" (.obj [])
      = ({ content := [.text "Error: Unknown tool: bogus_tool"], isError := true },
         clientAnon, []) :=
  dispatcher_error_boundary.1 netBadtoken clientAnon "bogus_tool" (.obj [])
    "Unknown tool: bogus_tool" clientAnon [] rfl

/-! ## C5 and C10 -/

theorem makeApiCall_trace (net : Net) (c : MediaWikiClient)
    (ps : List (String × Json)) (m : Method) :
    (makeApiCall net c ps m).2.2 = [buildRequest c ps m] := by
  dsimp only [makeApiCall]
  split
  · rfl
  · split <;> rfl

theorem toolStep_trace (call : Except String Json × MediaWikiClient × List HttpRequest)
    (reshape : Json → Except String Json) :
    (toolStep call reshape).2.2 = call.2.2 := by
  rcases call with ⟨r, c1, reqs⟩
  cases r with
  | error e => rfl
  | ok result =>
    dsimp only [toolStep]
    rcases reshape result with e | out <;> rfl

theorem toolStep_state (call : Except String Json × MediaWikiClient × List HttpRequest)
    (reshape : Json → Except String Json) :
    (toolStep call reshape).2.1 = call.2.1 := by
  rcases call with ⟨r, c1, reqs⟩
  cases r with
  | error e => rfl
  | ok result =>
    dsimp only [toolStep]
    rcases reshape result with e | out <;> rfl

theorem toolStep_ok (call : Except String Json × MediaWikiClient × List HttpRequest)
    (reshape : Json → Except String Json) (result out : Json)
    (c1 : MediaWikiClient) (reqs : List HttpRequest)
    (h1 : call = (.ok result, c1, reqs)) (h2 : reshape result = .ok out) :
    toolStep call reshape = (.ok (textResult out), c1, reqs) := by
  subst h1
  dsimp only [toolStep]
  rw [h2]

theorem handleToolCall_state_trace (net : Net) (c : MediaWikiClient)
    (name : String) (args : Json) :
    (handleToolCall net c name args).2 = (handleInner net c name args).2 := by
  unfold handleToolCall
  rcases h : handleInner net c name args with ⟨r, c1, reqs⟩
  cases r <;> rfl

theorem handleInner_search (net : Net) (c : MediaWikiClient) (args : Json)
    (h : jsTruthy args = true) :
    handleInner net c "search_pages" args
      = toolStep (searchPages net c (argField args "query")
          (mathMin (argFieldD args "limit" (.num 10)) (.num 50))) searchReshape := by
  unfold handleInner
  simp only [h, Bool.not_true, Bool.false_eq_true, if_false]
  rw [if_neg (by simp)]
  unfold dispatch
  simp

/-- Every `search_pages` invocation issues exactly one request: the search
GET built from the destructured `query` and the clamped `limit`. -/
theorem search_pages_trace (net : Net) (c : MediaWikiClient) (args : Json)
    (h : jsTruthy args = true) :
    (handleToolCall net c "search_pages" args).2.2
      = [buildRequest c (searchParams (argField args "query")
          (mathMin (argFieldD args "limit" (.num 10)) (.num 50))) .GET] := by
  have h3 := congrArg (fun p => p.2) (handleToolCall_state_trace net c "search_pages" args)
  dsimp only at h3
  rw [h3, handleInner_search net c args h, toolStep_trace]
  exact makeApiCall_trace net c (searchParams (argField args "query")
    (mathMin (argFieldD args "limit" (.num 10)) (.num 50))) .GET

/-- C5: the `search_pages` `limit` argument defaults to 10 when absent; a
numeric limit is clamped with `Math.min(limit, 50)`, so the upstream
request's `srlimit` parameter is `min limit 50` (at most 50) — in
particular `limit = 1000` yields `srlimit = 50`. -/
theorem search_limit_clamped (net : Net) (c : MediaWikiClient) (qs : String) (n : Int) :
    (handleToolCall net c "search_pages" (.obj [("query", .str qs), ("limit", .num n)])).2.2
      = [buildRequest c (searchParams (.str qs) (.num (min n 50))) .GET]
    ∧ (buildRequest c (searchParams (.str qs) (.num (min n 50))) .GET).params.lookup "srlimit"
      = some (toString (min n 50))
    ∧ min n 50 ≤ 50
    ∧ (handleToolCall net c "search_pages" (.obj [("query", .str qs)])).2.2
      = [buildRequest c (searchParams (.str qs) (.num 10)) .GET]
    ∧ (buildRequest c (searchParams (.str qs) (.num 10)) .GET).params.lookup "srlimit"
      = some "10" := by
  refine ⟨?_, ?_, min_le_right n 50, ?_, ?_⟩
  · have h := search_pages_trace net c (.obj [("query", .str qs), ("limit", .num n)]) rfl
    rw [h]
    rfl
  · rfl
  · have h := search_pages_trace net c (.obj [("query", .str qs)]) rfl
    rw [h]
    rfl
  · rfl

/-- C10: the clamp is an upper bound only — every numeric `limit ≤ 50`,
including zero and negatives, passes through `Math.min(limit, 50)` to the
upstream `srlimit` parameter unchanged; no lower bound is applied. -/
theorem search_limit_upper_bound_only (net : Net) (c : MediaWikiClient) (qs : String)
    (n : Int) (h : n ≤ 50) :
    (handleToolCall net c "search_pages" (.obj [("query", .str qs), ("limit", .num n)])).2.2
      = [buildRequest c (searchParams (.str qs) (.num n)) .GET]
    ∧ (buildRequest c (searchParams (.str qs) (.num n)) .GET).params.lookup "srlimit"
      = some (toString n) := by
  refine ⟨?_, rfl⟩
  have htr := search_pages_trace net c (.obj [("query", .str qs), ("limit", .num n)]) rfl
  rw [htr]
  rw [show mathMin (argFieldD (Json.obj [("query", Json.str qs), ("limit", Json.num n)])
      "limit" (Json.num 10)) (Json.num 50) = Json.num (min n 50) from rfl]
  rw [min_eq_left h]
  rfl

/-- Witness for `search_limit_upper_bound_only` at the negative limit
`-3`. -/
theorem search_limit_upper_bound_only_instance :
    (handleToolCall netBadtoken clientAnon "search_pages"
        (.obj [("query", .str "w"), ("limit", .num (-3))])).2.2
      = [buildRequest clientAnon (searchParams (.str "w") (.num (-3))) .GET]
    ∧ (buildRequest clientAnon (searchParams (.str "w") (.num (-3))) .GET).params.lookup
        "srlimit" = some (toString (-3 : Int)) :=
  search_limit_upper_bound_only netBadtoken clientAnon "w" (-3) (by decide)

/-! ## C6 -/

theorem handleToolCall_trace_list (net : Net) (c : MediaWikiClient)
    (name : String) (args : Json) :
    (handleToolCall net c name args).2.2 = (handleInner net c name args).2.2 :=
  congrArg Prod.snd (handleToolCall_state_trace net c name args)

/-- Helper: for a tool other than `search_pages`/`read_page`, `handleInner`
runs `login` first and, when the login does not throw, prefixes the login
trace to the dispatch trace computed on the post-login client. -/
theorem handleInner_gated (net : Net) (c : MediaWikiClient) (name : String) (args : Json)
    (h : jsTruthy args = true)
    (hname : (name != "search_pages" && name != "read_page") = true)
    (b : Bool) (c1 : MediaWikiClient) (lreqs : List HttpRequest)
    (hl : login net c = (.ok b, c1, lreqs)) :
    handleInner net c name args
      = ((dispatch net c1 name args).1, (dispatch net c1 name args).2.1,
         lreqs ++ (dispatch net c1 name args).2.2) := by
  unfold handleInner
  rw [if_neg (by simp [h]), if_pos hname, hl]

/-- C6: `createPage` and `updatePage` each run `getEditToken` before the
edit request; given that the token fetch produced the token string `t`
after trace `treqs`, the operation's trace is `treqs` followed by exactly
one POST whose rendered form parameters are
`action=edit, title, text, summary, token` — with `createonly=true` present
for create and absent for update; and with missing credentials the
`create_page` dispatcher path still performs the same trace — `login()`
returning `false` issues no request and does not block the edit. -/
theorem edit_requests_carry_token (net : Net) (c : MediaWikiClient)
    (title content summary t : String) (c1 : MediaWikiClient) (treqs : List HttpRequest)
    (h : getEditToken net c = (.ok (.str t), c1, treqs)) :
    (createPage net c (.str title) (.str content) (.str summary)).2.2
      = treqs ++ [buildRequest c1
          (createParams (.str title) (.str content) (.str summary) (.str t)) .POST]
    ∧ (updatePage net c (.str title) (.str content) (.str summary)).2.2
      = treqs ++ [buildRequest c1
          (updateParams (.str title) (.str content) (.str summary) (.str t)) .POST]
    ∧ (buildRequest c1
        (createParams (.str title) (.str content) (.str summary) (.str t)) .POST).method
      = .POST
    ∧ (buildRequest c1
        (createParams (.str title) (.str content) (.str summary) (.str t)) .POST).params
      = [("action", "edit"), ("title", title), ("text", content), ("summary", summary),
         ("token", t), ("createonly", "true"), ("format", "json"), ("formatversion", "2")]
    ∧ (buildRequest c1
        (updateParams (.str title) (.str content) (.str summary) (.str t)) .POST).params
      = [("action", "edit"), ("title", title), ("text", content), ("summary", summary),
         ("token", t), ("format", "json"), ("formatversion", "2")]
    ∧ ((jsStrFalsy c.username || jsStrFalsy c.password) = true →
        (handleToolCall net c "create_page"
            (.obj [("title", .str title), ("content", .str content)])).2.2
          = (createPage net c (.str title) (.str content) (.str "Created via MCP")).2.2) := by
  refine ⟨?_, ?_, rfl, rfl, rfl, ?_⟩
  · have hm := makeApiCall_trace net c1
      (createParams (.str title) (.str content) (.str summary) (.str t)) .POST
    rcases hmk : makeApiCall net c1
        (createParams (.str title) (.str content) (.str summary) (.str t)) .POST
      with ⟨r, c2, reqs2⟩
    rw [hmk] at hm
    dsimp only at hm
    unfold createPage
    rw [h]
    dsimp only
    rw [hmk]
    dsimp only
    rw [hm]
  · have hm := makeApiCall_trace net c1
      (updateParams (.str title) (.str content) (.str summary) (.str t)) .POST
    rcases hmk : makeApiCall net c1
        (updateParams (.str title) (.str content) (.str summary) (.str t)) .POST
      with ⟨r, c2, reqs2⟩
    rw [hmk] at hm
    dsimp only at hm
    unfold updatePage
    rw [h]
    dsimp only
    rw [hmk]
    dsimp only
    rw [hm]
  · intro hcred
    have hl : login net c = (.ok false, c, []) := by simp [login, hcred]
    rw [handleToolCall_trace_list]
    rw [handleInner_gated net c "create_page"
      (.obj [("title", .str title), ("content", .str content)]) rfl rfl false c [] hl]
    dsimp only
    rw [show dispatch net c "create_page" (.obj [("title", .str title), ("content", .str content)])
        = toolStep (createPage net c (.str title) (.str content) (.str "Created via MCP"))
            (editReshape (.str title)) from rfl]
    rw [toolStep_trace]
    simp

/-- Witness for `edit_requests_carry_token`: a create against the concrete
CSRF oracle. -/
theorem edit_requests_carry_token_instance :
    (createPage netCsrf clientAnon (.str "T") (.str "C") (.str "S")).2.2
      = [editTokenRequest clientAnon,
         buildRequest { clientAnon with editToken := .str "csrftok+\\" }
           (createParams (.str "T") (.str "C") (.str "S") (.str "csrftok+\\")) .POST] := by
  have h := (edit_requests_carry_token netCsrf clientAnon "T" "C" "S" "csrftok+\\"
    { clientAnon with editToken := .str "csrftok+\\" } [editTokenRequest clientAnon] (by rfl)).1
  exact h

/-! ## C7 -/

theorem except_ok_bind {e a b : Type} (x : a) (f : a → Except e b) :
    (Except.ok x : Except e a) >>= f = f x := rfl

/-- The request `read_page` issues for a string title. -/
def readPageRequest (c : MediaWikiClient) (t : String) : HttpRequest :=
  buildRequest c (getPageParams (.str t)) .GET

theorem readReshape_missing (result : Json)
    (hres : result.isNullish = false)
    (hq : (jsFieldRaw result "query").isNullish = false)
    (hp : (jsFieldRaw (jsFieldRaw result "query") "pages").isNullish = false)
    (hpage : (jsIndexRaw (jsFieldRaw (jsFieldRaw result "query") "pages") 0).isNullish = false)
    (hm : jsTruthy (jsFieldRaw (jsIndexRaw (jsFieldRaw (jsFieldRaw result "query") "pages") 0)
      "missing") = true) :
    readReshape result
      = .ok (missingPageResult (jsIndexRaw (jsFieldRaw (jsFieldRaw result "query") "pages") 0)) := by
  unfold readReshape
  simp only [jsGet_of_not_nullish _ _ hres, except_ok_bind,
    jsGet_of_not_nullish _ _ hq, jsIndex_of_not_nullish _ _ hp,
    jsGet_of_not_nullish _ _ hpage, hm, if_true]
  rfl

theorem readReshape_found (result : Json)
    (hres : result.isNullish = false)
    (hq : (jsFieldRaw result "query").isNullish = false)
    (hp : (jsFieldRaw (jsFieldRaw result "query") "pages").isNullish = false)
    (hpage : (jsIndexRaw (jsFieldRaw (jsFieldRaw result "query") "pages") 0).isNullish = false)
    (hm : jsTruthy (jsFieldRaw (jsIndexRaw (jsFieldRaw (jsFieldRaw result "query") "pages") 0)
      "missing") = false)
    (hrevs : (jsFieldRaw (jsIndexRaw (jsFieldRaw (jsFieldRaw result "query") "pages") 0)
      "revisions").isNullish = false)
    (hrev : (jsIndexRaw (jsFieldRaw (jsIndexRaw (jsFieldRaw (jsFieldRaw result "query") "pages") 0)
      "revisions") 0).isNullish = false)
    (hslots : (jsFieldRaw (jsIndexRaw (jsFieldRaw
      (jsIndexRaw (jsFieldRaw (jsFieldRaw result "query") "pages") 0) "revisions") 0)
      "slots").isNullish = false)
    (hmain : (jsFieldRaw (jsFieldRaw (jsIndexRaw (jsFieldRaw
      (jsIndexRaw (jsFieldRaw (jsFieldRaw result "query") "pages") 0) "revisions") 0)
      "slots") "main").isNullish = false) :
    readReshape result
      = .ok (Json.obj [
          ("title", jsFieldRaw
            (jsIndexRaw (jsFieldRaw (jsFieldRaw result "query") "pages") 0) "title"),
          ("content", jsFieldRaw (jsFieldRaw (jsFieldRaw (jsIndexRaw (jsFieldRaw
            (jsIndexRaw (jsFieldRaw (jsFieldRaw result "query") "pages") 0) "revisions") 0)
            "slots") "main") "content"),
          ("lastEdit", Json.obj [
            ("timestamp", jsFieldRaw (jsIndexRaw (jsFieldRaw
              (jsIndexRaw (jsFieldRaw (jsFieldRaw result "query") "pages") 0) "revisions") 0)
              "timestamp"),
            ("user", jsFieldRaw (jsIndexRaw (jsFieldRaw
              (jsIndexRaw (jsFieldRaw (jsFieldRaw result "query") "pages") 0) "revisions") 0)
              "user"),
            ("comment", jsFieldRaw (jsIndexRaw (jsFieldRaw
              (jsIndexRaw (jsFieldRaw (jsFieldRaw result "query") "pages") 0) "revisions") 0)
              "comment")])]) := by
  unfold readReshape
  simp only [jsGet_of_not_nullish _ _ hres, except_ok_bind,
    jsGet_of_not_nullish _ _ hq, jsIndex_of_not_nullish _ _ hp,
    jsGet_of_not_nullish _ _ hpage, hm, Bool.false_eq_true, if_false,
    jsGet_of_not_nullish _ _ hrevs, jsIndex_of_not_nullish _ _ hrevs,
    jsGet_of_not_nullish _ _ hrev, jsIndex_of_not_nullish _ _ hrev,
    jsGet_of_not_nullish _ _ hslots, jsGet_of_not_nullish _ _ hmain]
  rfl

/-- C7: `read_page` reshapes the raw response — when the first page object
carries no truthy `missing` flag, the tool result is the stringified
`(title, content, lastEdit(timestamp, user, comment))` object drawn from
the first revision's main slot; when `missing` is truthy, the result is the
stringified `(title, exists: false, message: "Page does not exist")` object
and is a normal non-error outcome (`isError = false` via `textResult`). -/
theorem read_page_reshaping (net : Net) (c : MediaWikiClient) (tstr : String)
    (hb : (net (readPageRequest c tstr)).body.isNullish = false)
    (he : jsTruthy (jsFieldRaw (net (readPageRequest c tstr)).body "error") = false)
    (hq : (jsFieldRaw (net (readPageRequest c tstr)).body "query").isNullish = false)
    (hp : (jsFieldRaw (jsFieldRaw (net (readPageRequest c tstr)).body "query")
      "pages").isNullish = false)
    (hpage : (jsIndexRaw (jsFieldRaw (jsFieldRaw (net (readPageRequest c tstr)).body "query")
      "pages") 0).isNullish = false) :
    (jsTruthy (jsFieldRaw (jsIndexRaw (jsFieldRaw
        (jsFieldRaw (net (readPageRequest c tstr)).body "query") "pages") 0) "missing") = true →
      handleToolCall net c "read_page" (.obj [("title", .str tstr)])
        = (textResult (Json.obj [
            ("title", jsFieldRaw (jsIndexRaw (jsFieldRaw
              (jsFieldRaw (net (readPageRequest c tstr)).body "query") "pages") 0) "title"),
            ("exists", .bool false),
            ("message", .str "Page does not exist")]),
           saveCookies c (net (readPageRequest c tstr)), [readPageRequest c tstr]))
    ∧ (jsTruthy (jsFieldRaw (jsIndexRaw (jsFieldRaw
        (jsFieldRaw (net (readPageRequest c tstr)).body "query") "pages") 0) "missing") = false →
       (jsFieldRaw (jsIndexRaw (jsFieldRaw (jsFieldRaw (net (readPageRequest c tstr)).body
         "query") "pages") 0) "revisions").isNullish = false →
       (jsIndexRaw (jsFieldRaw (jsIndexRaw (jsFieldRaw (jsFieldRaw
         (net (readPageRequest c tstr)).body "query") "pages") 0) "revisions") 0).isNullish
         = false →
       (jsFieldRaw (jsIndexRaw (jsFieldRaw (jsIndexRaw (jsFieldRaw (jsFieldRaw
         (net (readPageRequest c tstr)).body "query") "pages") 0) "revisions") 0)
         "slots").isNullish = false →
       (jsFieldRaw (jsFieldRaw (jsIndexRaw (jsFieldRaw (jsIndexRaw (jsFieldRaw (jsFieldRaw
         (net (readPageRequest c tstr)).body "query") "pages") 0) "revisions") 0) "slots")
         "main").isNullish = false →
      handleToolCall net c "read_page" (.obj [("title", .str tstr)])
        = (textResult (Json.obj [
            ("title", jsFieldRaw (jsIndexRaw (jsFieldRaw
              (jsFieldRaw (net (readPageRequest c tstr)).body "query") "pages") 0) "title"),
            ("content", jsFieldRaw (jsFieldRaw (jsFieldRaw (jsIndexRaw (jsFieldRaw
              (jsIndexRaw (jsFieldRaw (jsFieldRaw (net (readPageRequest c tstr)).body "query")
              "pages") 0) "revisions") 0) "slots") "main") "content"),
            ("lastEdit", Json.obj [
              ("timestamp", jsFieldRaw (jsIndexRaw (jsFieldRaw (jsIndexRaw (jsFieldRaw
                (jsFieldRaw (net (readPageRequest c tstr)).body "query") "pages") 0)
                "revisions") 0) "timestamp"),
              ("user", jsFieldRaw (jsIndexRaw (jsFieldRaw (jsIndexRaw (jsFieldRaw
                (jsFieldRaw (net (readPageRequest c tstr)).body "query") "pages") 0)
                "revisions") 0) "user"),
              ("comment", jsFieldRaw (jsIndexRaw (jsFieldRaw (jsIndexRaw (jsFieldRaw
                (jsFieldRaw (net (readPageRequest c tstr)).body "query") "pages") 0)
                "revisions") 0) "comment")])]),
           saveCookies c (net (readPageRequest c tstr)), [readPageRequest c tstr])) := by
  have hmk : getPage net c (.str tstr)
      = (.ok (net (readPageRequest c tstr)).body,
         saveCookies c (net (readPageRequest c tstr)), [readPageRequest c tstr]) :=
    makeApiCall_ok_eq net c (getPageParams (.str tstr)) .GET hb he
  constructor
  · intro hm
    have hrr := readReshape_missing (net (readPageRequest c tstr)).body hb hq hp hpage hm
    have hts := toolStep_ok (getPage net c (.str tstr)) readReshape
      (net (readPageRequest c tstr)).body _ _ _ hmk hrr
    unfold handleToolCall
    rw [show handleInner net c "read_page" (.obj [("title", .str tstr)])
        = toolStep (getPage net c (.str tstr)) readReshape from rfl]
    rw [hts]
    rfl
  · intro hm hrevs hrev hslots hmain
    have hrr := readReshape_found (net (readPageRequest c tstr)).body hb hq hp hpage hm
      hrevs hrev hslots hmain
    have hts := toolStep_ok (getPage net c (.str tstr)) readReshape
      (net (readPageRequest c tstr)).body _ _ _ hmk hrr
    unfold handleToolCall
    rw [show handleInner net c "read_page" (.obj [("title", .str tstr)])
        = toolStep (getPage net c (.str tstr)) readReshape from rfl]
    rw [hts]

/-- A raw read response with one existing page and one revision. -/
def foundPageBody : Json :=
  .obj [("query", .obj [("pages", .arr [ .obj [("title", .str "Dotta"),
    ("revisions", .arr [ .obj [("timestamp", .str "2024-01-01T00:00:00Z"),
      ("user", .str "Bob"), ("comment", .str "hi"),
      ("slots", .obj [("main", .obj [("content", .str "wikitext")])])]])]])])]

/-- An oracle answering every request with `foundPageBody`. -/
def netReadOk : Net := fun _ => { setCookie := none, body := foundPageBody }

/-- Witness for `read_page_reshaping`: reading the concrete existing
page. -/
theorem read_page_reshaping_instance :
    handleToolCall netReadOk clientAnon "read_page" (.obj [("title", .str "Dotta")])
      = (textResult (.obj [("title", .str "Dotta"), ("content", .str "wikitext"),
          ("lastEdit", .obj [("timestamp", .str "2024-01-01T00:00:00Z"),
            ("user", .str "Bob"), ("comment", .str "hi")])]),
         clientAnon, [readPageRequest clientAnon "Dotta"]) := by
  have h := (read_page_reshaping netReadOk clientAnon "Dotta"
    rfl rfl rfl rfl rfl).2 rfl rfl rfl rfl rfl
  exact h.trans (by rfl)

/-! ## C8 -/

theorem makeApiCall_state (net : Net) (c : MediaWikiClient)
    (ps : List (String × Json)) (m : Method) :
    (makeApiCall net c ps m).2.1 = saveCookies c (net (buildRequest c ps m)) := by
  dsimp only [makeApiCall]
  split
  · rfl
  · split <;> rfl

/-- C8: the cookie jar is accumulate-only and order-preserving — a request
built over a non-empty jar carries the stored values joined with `"; "` in
append order; each call appends the response's `Set-Cookie` value (if any)
to the end of the jar, never replacing or deduplicating; and after two
sequential calls whose responses set `s1` then `s2`, a third request's
`Cookie` header joins the original jar followed by `s1` then `s2`, in that
order. -/
theorem cookie_jar_accumulates (net : Net) (c : MediaWikiClient)
    (ps1 ps2 ps3 : List (String × Json)) (m1 m2 m3 : Method) (s1 s2 : String) :
    (c.cookies ≠ [] →
      (buildRequest c ps1 m1).cookieHeader = some (String.intercalate "; " c.cookies))
    ∧ (makeApiCall net c ps1 m1).2.1.cookies
        = c.cookies ++ (net (buildRequest c ps1 m1)).setCookie.toList
    ∧ ((net (buildRequest c ps1 m1)).setCookie = some s1 →
       (net (buildRequest (makeApiCall net c ps1 m1).2.1 ps2 m2)).setCookie = some s2 →
       (makeApiCall net (makeApiCall net c ps1 m1).2.1 ps2 m2).2.1.cookies
           = c.cookies ++ [s1, s2]
         ∧ (buildRequest (makeApiCall net (makeApiCall net c ps1 m1).2.1 ps2 m2).2.1
             ps3 m3).cookieHeader
           = some (String.intercalate "; " (c.cookies ++ [s1, s2]))) := by
  refine ⟨fun hne => ?_, ?_, fun h1 h2 => ?_⟩
  · have hlen : 0 < c.cookies.length := List.length_pos.mpr hne
    simp [buildRequest, cookieHeaderOf, hlen]
  · rw [makeApiCall_state]
    simp
  · rw [makeApiCall_state net c ps1 m1] at h2 ⊢
    have hc : (makeApiCall net (saveCookies c (net (buildRequest c ps1 m1))) ps2 m2).2.1.cookies
        = c.cookies ++ [s1, s2] := by
      rw [makeApiCall_state]
      simp [h1, h2]
    refine ⟨hc, ?_⟩
    show cookieHeaderOf
        (makeApiCall net (saveCookies c (net (buildRequest c ps1 m1))) ps2 m2).2.1.cookies
      = some (String.intercalate "; " (c.cookies ++ [s1, s2]))
    rw [hc]
    have hlen2 : 0 < (c.cookies ++ [s1, s2]).length := by
      simp
    simp [cookieHeaderOf, hlen2]

/-- An oracle that sets cookie `c1=1` on a request without a `Cookie`
header and `c2=2` on a request with one. -/
def netCookies : Net := fun req =>
  match req.cookieHeader with
  | none => { setCookie := some "c1=1", body := .obj [] }
  | some _ => { setCookie := some "c2=2", body := .obj [] }

/-- Witness for `cookie_jar_accumulates`: two calls against the concrete
cookie oracle, then the third request's header. -/
theorem cookie_jar_accumulates_instance :
    (makeApiCall netCookies (makeApiCall netCookies clientAnon [] .GET).2.1 [] .GET).2.1.cookies
        = ["c1=1", "c2=2"]
    ∧ (buildRequest (makeApiCall netCookies
        (makeApiCall netCookies clientAnon [] .GET).2.1 [] .GET).2.1 [] .GET).cookieHeader
        = some "c1=1; c2=2" := by
  have h := (cookie_jar_accumulates netCookies clientAnon [] [] [] .GET .GET .GET
    "c1=1" "c2=2").2.2 rfl rfl
  exact ⟨h.1.trans (by rfl), h.2.trans (by rfl)⟩

/-! ## C9 -/

theorem dispatch_unknown (net : Net) (c : MediaWikiClient) (name : String) (args : Json)
    (hn1 : name ≠ "search_pages") (hn2 : name ≠ "read_page") (hn3 : name ≠ "create_page")
    (hn4 : name ≠ "update_page") (hn5 : name ≠ "get_page_history")
    (hn6 : name ≠ "get_categories") :
    dispatch net c name args = (.error ("Unknown tool: " ++ name), c, []) := by
  unfold dispatch
  rw [if_neg hn1, if_neg hn2, if_neg hn3, if_neg hn4, if_neg hn5, if_neg hn6]

/-- C9: for every tool name other than `search_pages`/`read_page` the
dispatcher awaits `login()` before dispatching — the request trace is the
login trace followed by the dispatch trace on the post-login client; in
particular an unknown tool name with configured credentials performs the
full login round trip (token GET then credential POST) before failing with
`Error: Unknown tool: <name>`. -/
theorem login_gate_unknown_tool :
    (∀ (net : Net) (c : MediaWikiClient) (name : String) (args : Json)
        (b : Bool) (c1 : MediaWikiClient) (lreqs : List HttpRequest),
      jsTruthy args = true →
      (name != "search_pages" && name != "read_page") = true →
      login net c = (.ok b, c1, lreqs) →
      (handleToolCall net c name args).2.2 = lreqs ++ (dispatch net c1 name args).2.2)
    ∧ (∀ (net : Net) (c : MediaWikiClient) (name : String) (args : Json) (t : String),
      jsTruthy args = true →
      name ≠ "search_pages" → name ≠ "read_page" → name ≠ "create_page" →
      name ≠ "update_page" → name ≠ "get_page_history" → name ≠ "get_categories" →
      (jsStrFalsy c.username || jsStrFalsy c.password) = false →
      c.loggedIn = false →
      (net (loginTokenRequest c)).body.isNullish = false →
      jsTruthy (jsFieldRaw (net (loginTokenRequest c)).body "error") = false →
      (jsFieldRaw (net (loginTokenRequest c)).body "query").isNullish = false →
      (jsFieldRaw (jsFieldRaw (net (loginTokenRequest c)).body "query") "tokens").isNullish
        = false →
      jsFieldRaw (jsFieldRaw (jsFieldRaw (net (loginTokenRequest c)).body "query") "tokens")
        "logintoken" = .str t →
      (net (loginSubmitRequest net c t)).body.isNullish = false →
      jsTruthy (jsFieldRaw (net (loginSubmitRequest net c t)).body "error") = false →
      (jsFieldRaw (net (loginSubmitRequest net c t)).body "login").isNullish = false →
      jsFieldRaw (jsFieldRaw (net (loginSubmitRequest net c t)).body "login") "result"
        = .str "Success" →
      handleToolCall net c name args
        = ({ content := [.text ("Error: " ++ ("Unknown tool: " ++ name))], isError := true },
           { saveCookies (saveCookies c (net (loginTokenRequest c)))
               (net (loginSubmitRequest net c t)) with loggedIn := true },
           [loginTokenRequest c, loginSubmitRequest net c t])) := by
  constructor
  · intro net c name args b c1 lreqs h hname hl
    rw [handleToolCall_trace_list]
    rw [handleInner_gated net c name args h hname b c1 lreqs hl]
  · intro net c name args t h hn1 hn2 hn3 hn4 hn5 hn6 hcreds hlog hb1 he1 hq1 htk1 hltok
      hb2 he2 hl2 hres
    have hl := (login_first_eq net c t hcreds hlog hb1 he1 hq1 htk1 hltok hb2 he2 hl2).1 hres
    have hname : (name != "search_pages" && name != "read_page") = true := by
      simp [hn1, hn2]
    have hgate := handleInner_gated net c name args h hname true _ _ hl
    have hd := dispatch_unknown net
      { saveCookies (saveCookies c (net (loginTokenRequest c)))
          (net (loginSubmitRequest net c t)) with loggedIn := true }
      name args hn1 hn2 hn3 hn4 hn5 hn6
    unfold handleToolCall
    rw [hgate, hd]
    rfl

/-- Witness for `login_gate_unknown_tool`: an unknown tool with configured
credentials against the concrete handshake oracle logs in first, then
fails. -/
theorem login_gate_unknown_tool_instance :
    handleToolCall netLoginOk clientCred "bogus_tool" (.obj [])
      = ({ content := [.text ("Error: " ++ ("Unknown tool: " ++ "bogus_tool"))],
           isError := true },
         { saveCookies (saveCookies clientCred (netLoginOk (loginTokenRequest clientCred)))
             (netLoginOk (loginSubmitRequest netLoginOk clientCred "ltok")) with
            loggedIn := true },
         [loginTokenRequest clientCred, loginSubmitRequest netLoginOk clientCred "ltok"]) := by
  exact login_gate_unknown_tool.2 netLoginOk clientCred "bogus_tool" (.obj []) "ltok"
    rfl (by decide) (by decide) (by decide) (by decide) (by decide) (by decide)
    rfl rfl rfl rfl rfl rfl rfl rfl rfl rfl rfl

end Wizzy
